import Mathlib

/-!
# The foreign-call boundary of the wasm bindings

A shallow embedding of `api/callbacks.go` (the callbacks the engine makes into the
host: `cGet`, `cSet`, `cHumanAddress`, `cCanonicalAddress`) and of `api/lib.go`
(the entry points `Instantiate` ... `IBCPacketTimeout` and `errorWithMessage`), and of the
JSON wire form of the payload types `BlockInfo` and `MessageInfo` of `types/env.go`.

Conventions of the embedding.

* A Go `[]byte` is `GoSlice = Option (List UInt8)`: `none` is the `nil` slice and
  `some []` the empty, non-nil slice, which Go tells apart with `v != nil`.
* A Go `string` is the list of its bytes.
* A Go call that may panic returns an `Outcome`; host capabilities are arbitrary
  state transformers over a host state `h` that return an `Outcome`.
* A pointer to an output cell (`val *C.Buffer`) is an `Option`: `none` is the null
  pointer, `some b` a cell currently holding `b`; a callback returns the contents of
  the cell after the call.
-/

namespace Wasmvm

/-! ## Go values -/

/-- A Go byte slice: `none` is `nil`, `some bs` a non-nil slice with contents `bs`. -/
abbrev GoSlice := Option (List UInt8)

/-- A Go string, as its bytes. -/
abbrev GoString := List UInt8

/-- The conversion `string(b)` of a byte slice; the nil slice converts to the empty string. -/
def GoSlice.toGoString (b : GoSlice) : GoString :=
  match b with
  | none => []
  | some bs => bs

/-- The conversion `[]byte(s)` of a string: always a non-nil slice. -/
def GoString.toGoSlice (s : GoString) : GoSlice := some s

/-- A value handed to `panic` that is not nil. -/
structure PanicValue where
  code : Nat
deriving DecidableEq, Repr

/-- How a Go call ends: it returns a value, or it panics and the panic unwinds into the caller.
In `panicked p` the `p` is the value handed to `panic`: `some v` for a value that is not nil,
`none` for `panic(nil)`. -/
inductive Outcome (α : Type) where
  | returned (a : α)
  | panicked (p : Option PanicValue)
deriving DecidableEq, Repr

/-- The builtin `recover()` as seen by a deferred function, in the Go releases of this code
(before Go 1.21; later releases keep this behaviour when the `go` directive of the main
module is below 1.21): it stops the panic and returns the value handed to `panic`, which is
nil after `panic(nil)`; it returns nil when nothing panics. -/
def recover {α : Type} (o : Outcome α) : Option PanicValue :=
  match o with
  | .returned _ => none
  | .panicked p => p

/-- The errors that occur in `api/lib.go`. -/
inductive GoError where
  /-- A `syscall.Errno` (a `uintptr`), what cgo returns for a nonzero C `errno`. -/
  | errno (n : Nat)
  /-- The value `types.OutOfGasError{}`. -/
  | outOfGas
  /-- The error built by `fmt.Errorf("%s", text)`; its `Error()` is `text`. -/
  | errorf (text : GoString)
  /-- Any other error value, for the errors a host capability reports. -/
  | other (id : Nat)
deriving DecidableEq, Repr

/-! ## Buffers of `bindings.h` -/

/-- The `C.Buffer` of `api/callbacks.go`, with the tri-state of the spec's OwnedVector:
absent (the null buffer), or present with its bytes (possibly none). -/
inductive Buffer where
  | absent
  | present (bytes : List UInt8)
deriving DecidableEq, Repr

/-- Modelled from the spec: `receiveSlice` is in `api/memory.go`, which is missing. The spec's
`receiveView` "copies out" the bytes the buffer refers to; an absent buffer has no bytes and
gives the nil slice. -/
def receiveSlice (b : Buffer) : GoSlice :=
  match b with
  | .absent => none
  | .present bs => some bs

/-- Modelled from the spec: `allocateRust` is in `api/memory.go`, which is missing. The spec's
`allocate(bytes)` "copies `bytes` into a new allocation whose ownership passes to the caller":
the result is a present vector holding the bytes of the slice. -/
def allocateRust (data : GoSlice) : Buffer :=
  .present data.toGoString

/-! ## `api/callbacks.go` -/

/-- The Go interface `KVStore`; an implementation works on a host state `h` and may panic. -/
structure KVStore (h : Type) where
  Get : GoSlice → h → Outcome GoSlice × h
  Set : GoSlice → GoSlice → h → Outcome Unit × h

/-- The Go struct `GoAPI` with its two function fields; an `error` is `none` for nil. -/
structure GoAPI (h : Type) where
  HumanAddress : GoSlice → h → Outcome (GoString × Option GoError) × h
  CanonicalAddress : GoString → h → Outcome (GoSlice × Option GoError) × h

/-- What the engine observes of a callback with an output cell: how the call ended (`ret`),
the contents behind the output pointer afterwards (`out`), and the host state. -/
structure CallbackReturn (h : Type) where
  ret : Outcome Int
  out : Option Buffer
  state : h

/-- The deferred function `func() { if recover() != nil { ret = -1 } }()` of the three
callbacks with a status. `body` is how the function body ended; the named result `ret` holds
what a `return` statement stored, or still its zero value when the body panicked. The call to
`recover()` stops the panic, so the callback returns `ret`: -1 when `recover()` gave a value,
and the zero value after `panic(nil)`, where `recover()` gives nil. -/
def deferRecover (body : Outcome Int) : Outcome Int :=
  let ret : Int :=
    match body with
    | .returned r => r
    | .panicked _ => 0
  if recover body != none then .returned (-1) else .returned ret

/-- The callback `cGet(ptr *C.db_t, key C.Buffer, val *C.Buffer) (ret i64)`. -/
def cGet {h : Type} (ptr : KVStore h) (key : Buffer) (val : Option Buffer) (s : h) :
    CallbackReturn h :=
  match val with
  | none =>
    -- we received an invalid pointer
    { ret := deferRecover (.returned (-1)), out := none, state := s }
  | some cell =>
    let kv := ptr
    let k := receiveSlice key
    match kv.Get k s with
    | (.panicked p, s1) => { ret := deferRecover (.panicked p), out := some cell, state := s1 }
    | (.returned v, s1) =>
      -- v will equal nil when the key is missing
      if v != none then
        { ret := deferRecover (.returned 0), out := some (allocateRust v), state := s1 }
      else
        { ret := deferRecover (.returned 0), out := some cell, state := s1 }

/-- The callback `cSet(ptr *C.db_t, key C.Buffer, val C.Buffer)`: no result (the C type
`write_db_fn` returns `void`) and no deferred function. -/
def cSet {h : Type} (ptr : KVStore h) (key : Buffer) (val : Buffer) (s : h) : Outcome Unit × h :=
  let kv := ptr
  let k := receiveSlice key
  let v := receiveSlice val
  kv.Set k v s

/-- The callback `cHumanAddress(ptr *C.api_t, canon C.Buffer, human *C.Buffer) (ret i32)`. -/
def cHumanAddress {h : Type} (ptr : GoAPI h) (canon : Buffer) (human : Option Buffer) (s : h) :
    CallbackReturn h :=
  match human with
  | none =>
    -- we received an invalid pointer
    { ret := deferRecover (.returned (-1)), out := none, state := s }
  | some cell =>
    let api := ptr
    let c := receiveSlice canon
    match api.HumanAddress c s with
    | (.panicked p, s1) => { ret := deferRecover (.panicked p), out := some cell, state := s1 }
    | (.returned (hum, err), s1) =>
      if err != none then
        { ret := deferRecover (.returned (-1)), out := some cell, state := s1 }
      else
        { ret := deferRecover (.returned 0), out := some (allocateRust hum.toGoSlice), state := s1 }

/-- The callback `cCanonicalAddress(ptr *C.api_t, human C.Buffer, canon *C.Buffer) (ret i32)`. -/
def cCanonicalAddress {h : Type} (ptr : GoAPI h) (human : Buffer) (canon : Option Buffer)
    (s : h) : CallbackReturn h :=
  match canon with
  | none =>
    -- we received an invalid pointer
    { ret := deferRecover (.returned (-1)), out := none, state := s }
  | some cell =>
    let api := ptr
    let hum := (receiveSlice human).toGoString
    match api.CanonicalAddress hum s with
    | (.panicked p, s1) => { ret := deferRecover (.panicked p), out := some cell, state := s1 }
    | (.returned (c, err), s1) =>
      if err != none then
        { ret := deferRecover (.returned (-1)), out := some cell, state := s1 }
      else if c != none then
        { ret := deferRecover (.returned 0), out := some (allocateRust c), state := s1 }
      else
        -- canon is not set: the other side reads that as an empty result
        { ret := deferRecover (.returned 0), out := some cell, state := s1 }

/-! ## Values of `api/lib.go` that cross the boundary -/

/-- The `C.UnmanagedVector` of `api/lib.go`, with the tri-state of the spec's OwnedVector:
absent ("none"), or present with its bytes (possibly none). -/
inductive UnmanagedVector where
  | absent
  | present (bytes : List UInt8)
deriving DecidableEq, Repr

/-- Modelled from the spec: the view type of `bindings.h`, which is missing; "a non-owning
reference to a byte sequence", here the slice it refers to. -/
structure ByteSliceView where
  bytes : GoSlice
deriving DecidableEq, Repr

/-- Modelled from the spec: `makeView` is in `api/memory.go`, which is missing; it "never
copies", the view refers to the slice it was made of. -/
def makeView (s : GoSlice) : ByteSliceView := ⟨s⟩

/-- Modelled from the spec: `newUnmanagedVector` is in `api/memory.go`, which is missing. Made of
the nil slice it is the absent vector, else a present vector with the bytes of the slice. -/
def newUnmanagedVector (data : GoSlice) : UnmanagedVector :=
  match data with
  | none => .absent
  | some bs => .present bs

/-- The Go struct `Cache`, a pointer to the cache of the engine. -/
structure Cache where
  ptr : Nat
deriving DecidableEq, Repr

/-- One invocation frame of the iterator registry: its identifier and its open cursors. -/
structure Frame where
  id : Nat
  cursors : List Nat
deriving DecidableEq, Repr

/-- The state the host side of the boundary works on: the state `host` of the host
capabilities, the iterator registry with its counter (spec, Invocation Frame), and the log
`destroyed` of the vectors released so far, in the order of their release. -/
structure World (h : Type) where
  host : h
  latestContractCallID : Nat
  iteratorFrames : List Frame
  destroyed : List UnmanagedVector
deriving DecidableEq

/-- Modelled from the spec: `copyAndDestroyUnmanagedVector` is in `api/memory.go`, which is
missing. The vector is "consumed and copied out, then released": an absent vector gives the
nil slice, a present one a slice with its bytes, and the release is logged. -/
def copyAndDestroyUnmanagedVector {h : Type} (v : UnmanagedVector) (w : World h) :
    GoSlice × World h :=
  let out : GoSlice :=
    match v with
    | .absent => none
    | .present bs => some bs
  (out, { w with destroyed := w.destroyed ++ [v] })

/-- Modelled from the spec: `startContract` is in `api/iterator.go`, which is missing. It does the
`Start` transition: "allocate frame, assign a fresh monotonically increasing frame identifier". -/
def startContract {h : Type} (w : World h) : Nat × World h :=
  let counter := w.latestContractCallID + 1
  (counter, { w with latestContractCallID := counter,
                     iteratorFrames := ⟨counter, []⟩ :: w.iteratorFrames })

/-- Modelled from the spec: `endContract` is in `api/iterator.go`, which is missing. It does the
`End` transition: "frame and all its cursors deallocated". -/
def endContract {h : Type} (counter : Nat) (w : World h) : World h :=
  { w with iteratorFrames := w.iteratorFrames.filter (fun f => f.id != counter) }

/-- Modelled from the spec: the state a store table is bound to in `api/lib.go` (its declaration
is missing): the store and the frame of the call. -/
structure DBState (h : Type) where
  Store : KVStore h
  CallID : Nat

/-- Modelled from the spec: `buildDBState` as `api/lib.go` calls it (missing). -/
def buildDBState {h : Type} (store : KVStore h) (counter : Nat) : DBState h := ⟨store, counter⟩

/-- Modelled from the spec: the `C.DB` that `api/lib.go` hands to the engine: a callback table
(a constant) with the state it is bound to, and the gas meter. -/
structure DB (h G : Type) where
  state : DBState h
  gasMeter : G

/-- Modelled from the spec: `buildDB` as `api/lib.go` calls it, `buildDB(&dbState, gasMeter)`
(this version is missing; the one of `api/callbacks.go` takes the store alone). -/
def buildDB {h G : Type} (state : DBState h) (gasMeter : G) : DB h G := ⟨state, gasMeter⟩

/-- The `C.GoApi` of `buildAPI`: the constant table `api_vtable` with the state it is bound to. -/
structure GoApi (h : Type) where
  state : GoAPI h

/-- The function `buildAPI(api *GoAPI) C.GoApi`. -/
def buildAPI {h : Type} (api : GoAPI h) : GoApi h := ⟨api⟩

/-- Modelled from the spec: the `C.GoQuerier` (declaration missing): the querier is "opaque,
forwarded to engine unchanged". -/
structure GoQuerier (Q : Type) where
  state : Q

/-- Modelled from the spec: `buildQuerier` is missing; it binds the table to the querier. -/
def buildQuerier {Q : Type} (querier : Q) : GoQuerier Q := ⟨querier⟩

/-- Modelled from the spec: the constant `C.ErrnoValue_Success` of `bindings.h`, which is missing;
in the spec's Error Signal "0 = success". -/
def ErrnoValue_Success : Nat := 0

/-! ## The engine -/

/-- What a call into the engine leaves behind when it returns: the result vector `res`, the
`err` of cgo (the C `errno` as a `syscall.Errno`, `none` for nil), and the contents of the
two output cells `gasUsed` and `errmsg`. -/
structure EngineReturn where
  res : UnmanagedVector
  err : Option Nat
  gasUsed : Nat
  errmsg : UnmanagedVector
deriving DecidableEq, Repr

/-- An engine function with three views (checksum, env, message). The last two arguments are
the contents of the cells `&gasUsed` and `&errmsg` at the call. The engine may run host
callbacks, so it works on the world, and a panic of a callback unwinds through it. -/
abbrev EngineFn3 (h G Q : Type) :=
  Nat → ByteSliceView → ByteSliceView → ByteSliceView → DB h G → GoApi h → GoQuerier Q →
    Nat → Bool → Nat → UnmanagedVector → World h → Outcome EngineReturn × World h

/-- An engine function with four views (checksum, env, info, message). -/
abbrev EngineFn4 (h G Q : Type) :=
  Nat → ByteSliceView → ByteSliceView → ByteSliceView → ByteSliceView → DB h G → GoApi h →
    GoQuerier Q → Nat → Bool → Nat → UnmanagedVector → World h → Outcome EngineReturn × World h

/-- The functions of the engine (`bindings.h`) that the entry points call; the engine is an
external collaborator, so every theorem quantifies over it. -/
structure CApi (h G Q : Type) where
  instantiate : EngineFn4 h G Q
  handle : EngineFn4 h G Q
  migrate : EngineFn3 h G Q
  query : EngineFn3 h G Q
  ibc_channel_open : EngineFn3 h G Q
  ibc_channel_connect : EngineFn3 h G Q
  ibc_channel_close : EngineFn3 h G Q
  ibc_packet_receive : EngineFn3 h G Q
  ibc_packet_ack : EngineFn3 h G Q
  ibc_packet_timeout : EngineFn3 h G Q

/-! ## `api/lib.go` -/

/-- The conversion `int(errno)` of a `uintptr` on a 64-bit platform. -/
def intOfUintptr (n : Nat) : Int :=
  let m : Nat := n % 2 ^ 64
  if m < 2 ^ 63 then Int.ofNat m else Int.ofNat m - 2 ^ 64

/-- The type assertion `errno, ok := err.(syscall.Errno)`. -/
def assertErrno (err : Option GoError) : Nat × Bool :=
  match err with
  | some (.errno n) => (n, true)
  | _ => (0, false)

/-- The function `errorWithMessage(err error, b C.UnmanagedVector) error`. -/
def errorWithMessage {h : Type} (err : Option GoError) (b : UnmanagedVector) (w : World h) :
    Option GoError × World h :=
  -- this checks for out of gas as a special case
  let (errno, ok) := assertErrno err
  if ok && intOfUintptr errno == 2 then
    (some .outOfGas, w)
  else
    let (msg, w1) := copyAndDestroyUnmanagedVector b w
    if msg == none then
      (err, w1)
    else
      (some (.errorf msg.toGoString), w1)

/-- The statement `defer f()` around the rest of a function body: `f` runs when the function
exits, whether the body returned or panicked. -/
def withDefer {σ α : Type} (f : σ → σ) (body : σ → Outcome α × σ) (s : σ) : Outcome α × σ :=
  let r := body s
  (r.1, f r.2)

/-- What an entry point hands back: `([]byte, uint64, error)`, or a panic that unwinds. -/
abbrev EntryReturn (h : Type) := Outcome (GoSlice × Nat × Option GoError) × World h

/-- The entry point `Instantiate` of `api/lib.go`; the deferred `runtime.KeepAlive` calls have no
effect on the values. -/
def Instantiate {h G Q : Type} (C : CApi h G Q) (cache : Cache) (checksum env info msg : GoSlice)
    (gasMeter : G) (store : KVStore h) (api : GoAPI h) (querier : Q) (gasLimit : Nat)
    (printDebug : Bool) (w : World h) : EntryReturn h :=
  let cs := makeView checksum
  let e := makeView env
  let i := makeView info
  let m := makeView msg
  -- set up a new stack frame to handle iterators
  let (counter, w1) := startContract w
  withDefer (endContract counter) (fun w2 =>
    let dbState := buildDBState store counter
    let db := buildDB dbState gasMeter
    let a := buildAPI api
    let q := buildQuerier querier
    let gasUsed : Nat := 0
    let errmsg := newUnmanagedVector none
    match C.instantiate cache.ptr cs e i m db a q gasLimit printDebug gasUsed errmsg w2 with
    | (.panicked p, w3) => (.panicked p, w3)
    | (.returned r, w3) =>
      if r.err != none && r.err != some ErrnoValue_Success then
        -- Depending on the nature of the error, gasUsed has a meaningful value, or just 0.
        let (err, w4) := errorWithMessage (r.err.map GoError.errno) r.errmsg w3
        (.returned (none, r.gasUsed, err), w4)
      else
        let (out, w4) := copyAndDestroyUnmanagedVector r.res w3
        (.returned (out, r.gasUsed, none), w4)) w1

/-- The entry point `Handle` of `api/lib.go`; the deferred `runtime.KeepAlive` calls have no
effect on the values. -/
def Handle {h G Q : Type} (C : CApi h G Q) (cache : Cache) (checksum env info msg : GoSlice)
    (gasMeter : G) (store : KVStore h) (api : GoAPI h) (querier : Q) (gasLimit : Nat)
    (printDebug : Bool) (w : World h) : EntryReturn h :=
  let cs := makeView checksum
  let e := makeView env
  let i := makeView info
  let m := makeView msg
  -- set up a new stack frame to handle iterators
  let (counter, w1) := startContract w
  withDefer (endContract counter) (fun w2 =>
    let dbState := buildDBState store counter
    let db := buildDB dbState gasMeter
    let a := buildAPI api
    let q := buildQuerier querier
    let gasUsed : Nat := 0
    let errmsg := newUnmanagedVector none
    match C.handle cache.ptr cs e i m db a q gasLimit printDebug gasUsed errmsg w2 with
    | (.panicked p, w3) => (.panicked p, w3)
    | (.returned r, w3) =>
      if r.err != none && r.err != some ErrnoValue_Success then
        -- Depending on the nature of the error, gasUsed has a meaningful value, or just 0.
        let (err, w4) := errorWithMessage (r.err.map GoError.errno) r.errmsg w3
        (.returned (none, r.gasUsed, err), w4)
      else
        let (out, w4) := copyAndDestroyUnmanagedVector r.res w3
        (.returned (out, r.gasUsed, none), w4)) w1

/-- The entry point `Migrate` of `api/lib.go`; the deferred `runtime.KeepAlive` calls have no
effect on the values. -/
def Migrate {h G Q : Type} (C : CApi h G Q) (cache : Cache) (checksum env msg : GoSlice)
    (gasMeter : G) (store : KVStore h) (api : GoAPI h) (querier : Q) (gasLimit : Nat)
    (printDebug : Bool) (w : World h) : EntryReturn h :=
  let cs := makeView checksum
  let e := makeView env
  let m := makeView msg
  -- set up a new stack frame to handle iterators
  let (counter, w1) := startContract w
  withDefer (endContract counter) (fun w2 =>
    let dbState := buildDBState store counter
    let db := buildDB dbState gasMeter
    let a := buildAPI api
    let q := buildQuerier querier
    let gasUsed : Nat := 0
    let errmsg := newUnmanagedVector none
    match C.migrate cache.ptr cs e m db a q gasLimit printDebug gasUsed errmsg w2 with
    | (.panicked p, w3) => (.panicked p, w3)
    | (.returned r, w3) =>
      if r.err != none && r.err != some ErrnoValue_Success then
        -- Depending on the nature of the error, gasUsed has a meaningful value, or just 0.
        let (err, w4) := errorWithMessage (r.err.map GoError.errno) r.errmsg w3
        (.returned (none, r.gasUsed, err), w4)
      else
        let (out, w4) := copyAndDestroyUnmanagedVector r.res w3
        (.returned (out, r.gasUsed, none), w4)) w1

/-- The entry point `Query` of `api/lib.go`; the deferred `runtime.KeepAlive` calls have no
effect on the values. -/
def Query {h G Q : Type} (C : CApi h G Q) (cache : Cache) (checksum env msg : GoSlice)
    (gasMeter : G) (store : KVStore h) (api : GoAPI h) (querier : Q) (gasLimit : Nat)
    (printDebug : Bool) (w : World h) : EntryReturn h :=
  let cs := makeView checksum
  let e := makeView env
  let m := makeView msg
  -- set up a new stack frame to handle iterators
  let (counter, w1) := startContract w
  withDefer (endContract counter) (fun w2 =>
    let dbState := buildDBState store counter
    let db := buildDB dbState gasMeter
    let a := buildAPI api
    let q := buildQuerier querier
    let gasUsed : Nat := 0
    let errmsg := newUnmanagedVector none
    match C.query cache.ptr cs e m db a q gasLimit printDebug gasUsed errmsg w2 with
    | (.panicked p, w3) => (.panicked p, w3)
    | (.returned r, w3) =>
      if r.err != none && r.err != some ErrnoValue_Success then
        -- Depending on the nature of the error, gasUsed has a meaningful value, or just 0.
        let (err, w4) := errorWithMessage (r.err.map GoError.errno) r.errmsg w3
        (.returned (none, r.gasUsed, err), w4)
      else
        let (out, w4) := copyAndDestroyUnmanagedVector r.res w3
        (.returned (out, r.gasUsed, none), w4)) w1

/-- The entry point `IBCChannelOpen` of `api/lib.go`; the deferred `runtime.KeepAlive` calls have no
effect on the values. -/
def IBCChannelOpen {h G Q : Type} (C : CApi h G Q) (cache : Cache) (checksum env channel : GoSlice)
    (gasMeter : G) (store : KVStore h) (api : GoAPI h) (querier : Q) (gasLimit : Nat)
    (printDebug : Bool) (w : World h) : EntryReturn h :=
  let cs := makeView checksum
  let e := makeView env
  let ch := makeView channel
  -- set up a new stack frame to handle iterators
  let (counter, w1) := startContract w
  withDefer (endContract counter) (fun w2 =>
    let dbState := buildDBState store counter
    let db := buildDB dbState gasMeter
    let a := buildAPI api
    let q := buildQuerier querier
    let gasUsed : Nat := 0
    let errmsg := newUnmanagedVector none
    match C.ibc_channel_open cache.ptr cs e ch db a q gasLimit printDebug gasUsed errmsg w2 with
    | (.panicked p, w3) => (.panicked p, w3)
    | (.returned r, w3) =>
      if r.err != none && r.err != some ErrnoValue_Success then
        -- Depending on the nature of the error, gasUsed has a meaningful value, or just 0.
        let (err, w4) := errorWithMessage (r.err.map GoError.errno) r.errmsg w3
        (.returned (none, r.gasUsed, err), w4)
      else
        let (out, w4) := copyAndDestroyUnmanagedVector r.res w3
        (.returned (out, r.gasUsed, none), w4)) w1

/-- The entry point `IBCChannelConnect` of `api/lib.go`; the deferred `runtime.KeepAlive` calls have no
effect on the values. -/
def IBCChannelConnect {h G Q : Type} (C : CApi h G Q) (cache : Cache) (checksum env channel : GoSlice)
    (gasMeter : G) (store : KVStore h) (api : GoAPI h) (querier : Q) (gasLimit : Nat)
    (printDebug : Bool) (w : World h) : EntryReturn h :=
  let cs := makeView checksum
  let e := makeView env
  let ch := makeView channel
  -- set up a new stack frame to handle iterators
  let (counter, w1) := startContract w
  withDefer (endContract counter) (fun w2 =>
    let dbState := buildDBState store counter
    let db := buildDB dbState gasMeter
    let a := buildAPI api
    let q := buildQuerier querier
    let gasUsed : Nat := 0
    let errmsg := newUnmanagedVector none
    match C.ibc_channel_connect cache.ptr cs e ch db a q gasLimit printDebug gasUsed errmsg w2 with
    | (.panicked p, w3) => (.panicked p, w3)
    | (.returned r, w3) =>
      if r.err != none && r.err != some ErrnoValue_Success then
        -- Depending on the nature of the error, gasUsed has a meaningful value, or just 0.
        let (err, w4) := errorWithMessage (r.err.map GoError.errno) r.errmsg w3
        (.returned (none, r.gasUsed, err), w4)
      else
        let (out, w4) := copyAndDestroyUnmanagedVector r.res w3
        (.returned (out, r.gasUsed, none), w4)) w1

/-- The entry point `IBCChannelClose` of `api/lib.go`; the deferred `runtime.KeepAlive` calls have no
effect on the values. -/
def IBCChannelClose {h G Q : Type} (C : CApi h G Q) (cache : Cache) (checksum env channel : GoSlice)
    (gasMeter : G) (store : KVStore h) (api : GoAPI h) (querier : Q) (gasLimit : Nat)
    (printDebug : Bool) (w : World h) : EntryReturn h :=
  let cs := makeView checksum
  let e := makeView env
  let ch := makeView channel
  -- set up a new stack frame to handle iterators
  let (counter, w1) := startContract w
  withDefer (endContract counter) (fun w2 =>
    let dbState := buildDBState store counter
    let db := buildDB dbState gasMeter
    let a := buildAPI api
    let q := buildQuerier querier
    let gasUsed : Nat := 0
    let errmsg := newUnmanagedVector none
    match C.ibc_channel_close cache.ptr cs e ch db a q gasLimit printDebug gasUsed errmsg w2 with
    | (.panicked p, w3) => (.panicked p, w3)
    | (.returned r, w3) =>
      if r.err != none && r.err != some ErrnoValue_Success then
        -- Depending on the nature of the error, gasUsed has a meaningful value, or just 0.
        let (err, w4) := errorWithMessage (r.err.map GoError.errno) r.errmsg w3
        (.returned (none, r.gasUsed, err), w4)
      else
        let (out, w4) := copyAndDestroyUnmanagedVector r.res w3
        (.returned (out, r.gasUsed, none), w4)) w1

/-- The entry point `IBCPacketReceive` of `api/lib.go`; the deferred `runtime.KeepAlive` calls have no
effect on the values. -/
def IBCPacketReceive {h G Q : Type} (C : CApi h G Q) (cache : Cache) (checksum env packet : GoSlice)
    (gasMeter : G) (store : KVStore h) (api : GoAPI h) (querier : Q) (gasLimit : Nat)
    (printDebug : Bool) (w : World h) : EntryReturn h :=
  let cs := makeView checksum
  let e := makeView env
  let pa := makeView packet
  -- set up a new stack frame to handle iterators
  let (counter, w1) := startContract w
  withDefer (endContract counter) (fun w2 =>
    let dbState := buildDBState store counter
    let db := buildDB dbState gasMeter
    let a := buildAPI api
    let q := buildQuerier querier
    let gasUsed : Nat := 0
    let errmsg := newUnmanagedVector none
    match C.ibc_packet_receive cache.ptr cs e pa db a q gasLimit printDebug gasUsed errmsg w2 with
    | (.panicked p, w3) => (.panicked p, w3)
    | (.returned r, w3) =>
      if r.err != none && r.err != some ErrnoValue_Success then
        -- Depending on the nature of the error, gasUsed has a meaningful value, or just 0.
        let (err, w4) := errorWithMessage (r.err.map GoError.errno) r.errmsg w3
        (.returned (none, r.gasUsed, err), w4)
      else
        let (out, w4) := copyAndDestroyUnmanagedVector r.res w3
        (.returned (out, r.gasUsed, none), w4)) w1

/-- The entry point `IBCPacketAck` of `api/lib.go`; the deferred `runtime.KeepAlive` calls have no
effect on the values. -/
def IBCPacketAck {h G Q : Type} (C : CApi h G Q) (cache : Cache) (checksum env ack : GoSlice)
    (gasMeter : G) (store : KVStore h) (api : GoAPI h) (querier : Q) (gasLimit : Nat)
    (printDebug : Bool) (w : World h) : EntryReturn h :=
  let cs := makeView checksum
  let e := makeView env
  let ac := makeView ack
  -- set up a new stack frame to handle iterators
  let (counter, w1) := startContract w
  withDefer (endContract counter) (fun w2 =>
    let dbState := buildDBState store counter
    let db := buildDB dbState gasMeter
    let a := buildAPI api
    let q := buildQuerier querier
    let gasUsed : Nat := 0
    let errmsg := newUnmanagedVector none
    match C.ibc_packet_ack cache.ptr cs e ac db a q gasLimit printDebug gasUsed errmsg w2 with
    | (.panicked p, w3) => (.panicked p, w3)
    | (.returned r, w3) =>
      if r.err != none && r.err != some ErrnoValue_Success then
        -- Depending on the nature of the error, gasUsed has a meaningful value, or just 0.
        let (err, w4) := errorWithMessage (r.err.map GoError.errno) r.errmsg w3
        (.returned (none, r.gasUsed, err), w4)
      else
        let (out, w4) := copyAndDestroyUnmanagedVector r.res w3
        (.returned (out, r.gasUsed, none), w4)) w1

/-- The entry point `IBCPacketTimeout` of `api/lib.go`; the deferred `runtime.KeepAlive` calls have no
effect on the values. -/
def IBCPacketTimeout {h G Q : Type} (C : CApi h G Q) (cache : Cache) (checksum env packet : GoSlice)
    (gasMeter : G) (store : KVStore h) (api : GoAPI h) (querier : Q) (gasLimit : Nat)
    (printDebug : Bool) (w : World h) : EntryReturn h :=
  let cs := makeView checksum
  let e := makeView env
  let pa := makeView packet
  -- set up a new stack frame to handle iterators
  let (counter, w1) := startContract w
  withDefer (endContract counter) (fun w2 =>
    let dbState := buildDBState store counter
    let db := buildDB dbState gasMeter
    let a := buildAPI api
    let q := buildQuerier querier
    let gasUsed : Nat := 0
    let errmsg := newUnmanagedVector none
    match C.ibc_packet_timeout cache.ptr cs e pa db a q gasLimit printDebug gasUsed errmsg w2 with
    | (.panicked p, w3) => (.panicked p, w3)
    | (.returned r, w3) =>
      if r.err != none && r.err != some ErrnoValue_Success then
        -- Depending on the nature of the error, gasUsed has a meaningful value, or just 0.
        let (err, w4) := errorWithMessage (r.err.map GoError.errno) r.errmsg w3
        (.returned (none, r.gasUsed, err), w4)
      else
        let (out, w4) := copyAndDestroyUnmanagedVector r.res w3
        (.returned (out, r.gasUsed, none), w4)) w1

/-! ## All entry points at once -/

/-- The ten entry points of `api/lib.go`. -/
inductive EntryPoint where
  | Instantiate | Handle | Migrate | Query
  | IBCChannelOpen | IBCChannelConnect | IBCChannelClose
  | IBCPacketReceive | IBCPacketAck | IBCPacketTimeout
deriving DecidableEq, Repr

/-- The arguments of an entry point. `info` is read by `Instantiate` and `Handle` only, and
`msg` is the third buffer of the others (their `msg`, `channel`, `packet` or `ack`). -/
structure CallInput (h G Q : Type) where
  cache : Cache
  checksum : GoSlice
  env : GoSlice
  info : GoSlice
  msg : GoSlice
  gasMeter : G
  store : KVStore h
  api : GoAPI h
  querier : Q
  gasLimit : Nat
  printDebug : Bool

/-- The call of the entry point `ep` on the arguments `inp`. -/
def EntryPoint.run {h G Q : Type} (ep : EntryPoint) (C : CApi h G Q) (inp : CallInput h G Q)
    (w : World h) : EntryReturn h :=
  match ep with
  | .Instantiate => Wasmvm.Instantiate C inp.cache inp.checksum inp.env inp.info inp.msg inp.gasMeter
      inp.store inp.api inp.querier inp.gasLimit inp.printDebug w
  | .Handle => Wasmvm.Handle C inp.cache inp.checksum inp.env inp.info inp.msg inp.gasMeter
      inp.store inp.api inp.querier inp.gasLimit inp.printDebug w
  | .Migrate => Wasmvm.Migrate C inp.cache inp.checksum inp.env inp.msg inp.gasMeter
      inp.store inp.api inp.querier inp.gasLimit inp.printDebug w
  | .Query => Wasmvm.Query C inp.cache inp.checksum inp.env inp.msg inp.gasMeter
      inp.store inp.api inp.querier inp.gasLimit inp.printDebug w
  | .IBCChannelOpen => Wasmvm.IBCChannelOpen C inp.cache inp.checksum inp.env inp.msg inp.gasMeter
      inp.store inp.api inp.querier inp.gasLimit inp.printDebug w
  | .IBCChannelConnect => Wasmvm.IBCChannelConnect C inp.cache inp.checksum inp.env inp.msg inp.gasMeter
      inp.store inp.api inp.querier inp.gasLimit inp.printDebug w
  | .IBCChannelClose => Wasmvm.IBCChannelClose C inp.cache inp.checksum inp.env inp.msg inp.gasMeter
      inp.store inp.api inp.querier inp.gasLimit inp.printDebug w
  | .IBCPacketReceive => Wasmvm.IBCPacketReceive C inp.cache inp.checksum inp.env inp.msg inp.gasMeter
      inp.store inp.api inp.querier inp.gasLimit inp.printDebug w
  | .IBCPacketAck => Wasmvm.IBCPacketAck C inp.cache inp.checksum inp.env inp.msg inp.gasMeter
      inp.store inp.api inp.querier inp.gasLimit inp.printDebug w
  | .IBCPacketTimeout => Wasmvm.IBCPacketTimeout C inp.cache inp.checksum inp.env inp.msg inp.gasMeter
      inp.store inp.api inp.querier inp.gasLimit inp.printDebug w

/-- The engine function that the entry point `ep` calls, applied to the views it makes of its
buffers (Instantiate and Handle pass four views, the others three). -/
def EntryPoint.engineFn {h G Q : Type} (ep : EntryPoint) (C : CApi h G Q)
    (inp : CallInput h G Q) : DB h G → GoApi h → GoQuerier Q → Nat → Bool → Nat →
      UnmanagedVector → World h → Outcome EngineReturn × World h :=
  match ep with
  | .Instantiate => C.instantiate inp.cache.ptr (makeView inp.checksum) (makeView inp.env)
      (makeView inp.info) (makeView inp.msg)
  | .Handle => C.handle inp.cache.ptr (makeView inp.checksum) (makeView inp.env)
      (makeView inp.info) (makeView inp.msg)
  | .Migrate => C.migrate inp.cache.ptr (makeView inp.checksum) (makeView inp.env)
      (makeView inp.msg)
  | .Query => C.query inp.cache.ptr (makeView inp.checksum) (makeView inp.env)
      (makeView inp.msg)
  | .IBCChannelOpen => C.ibc_channel_open inp.cache.ptr (makeView inp.checksum)
      (makeView inp.env) (makeView inp.msg)
  | .IBCChannelConnect => C.ibc_channel_connect inp.cache.ptr (makeView inp.checksum)
      (makeView inp.env) (makeView inp.msg)
  | .IBCChannelClose => C.ibc_channel_close inp.cache.ptr (makeView inp.checksum)
      (makeView inp.env) (makeView inp.msg)
  | .IBCPacketReceive => C.ibc_packet_receive inp.cache.ptr (makeView inp.checksum)
      (makeView inp.env) (makeView inp.msg)
  | .IBCPacketAck => C.ibc_packet_ack inp.cache.ptr (makeView inp.checksum)
      (makeView inp.env) (makeView inp.msg)
  | .IBCPacketTimeout => C.ibc_packet_timeout inp.cache.ptr (makeView inp.checksum)
      (makeView inp.env) (makeView inp.msg)

/-- The call into the engine that the entry point `ep` makes in the frame `counter`: the
engine function of `ep` on the tables built for this call, the gas limit, the debug flag, and
the two output cells in their initial state (`gasUsed` zero, `errmsg` absent). -/
def EntryPoint.engineCall {h G Q : Type} (ep : EntryPoint) (C : CApi h G Q)
    (inp : CallInput h G Q) (counter : Nat) (w : World h) : Outcome EngineReturn × World h :=
  ep.engineFn C inp (buildDB (buildDBState inp.store counter) inp.gasMeter) (buildAPI inp.api)
    (buildQuerier inp.querier) inp.gasLimit inp.printDebug 0 (newUnmanagedVector none) w

/-! ## JSON, as `encoding/json` maps it to and from Go values

The payload types of `types/env.go` have no code of their own: their wire form is what
`json.Marshal` and `json.Unmarshal` make of the struct declarations and their tags. A JSON
text is represented by its tree (`JSONValue`), with the members of an object in the order of
the text; `JSONValue.render` is the text that Go's encoder writes for a tree. -/

/-- The bytes of a text of ASCII characters. -/
def ascii (s : String) : GoString := s.toList.map (fun c => UInt8.ofNat c.toNat)

/-- Whether `b` is a continuation byte of UTF-8, `0x80` to `0xBF`. -/
def isContinuation (b : UInt8) : Bool := 0x80 ≤ b && b ≤ 0xBF

/-- The width of the UTF-8 sequence at the start of `s` as `utf8.DecodeRune` finds it, or
`none` where it reports `RuneError` with the width 1 (no well-formed sequence starts here;
also for the empty input). -/
def runeWidth (s : List UInt8) : Option Nat :=
  match s with
  | [] => none
  | b0 :: rest =>
    if b0 < 0x80 then some 1
    else if 0xC2 ≤ b0 && b0 ≤ 0xDF then
      match rest with
      | b1 :: _ => if isContinuation b1 then some 2 else none
      | _ => none
    else if 0xE0 ≤ b0 && b0 ≤ 0xEF then
      match rest with
      | b1 :: b2 :: _ =>
        let lo : UInt8 := if b0 == 0xE0 then 0xA0 else 0x80
        let hi : UInt8 := if b0 == 0xED then 0x9F else 0xBF
        if lo ≤ b1 && b1 ≤ hi && isContinuation b2 then some 3 else none
      | _ => none
    else if 0xF0 ≤ b0 && b0 ≤ 0xF4 then
      match rest with
      | b1 :: b2 :: b3 :: _ =>
        let lo : UInt8 := if b0 == 0xF0 then 0x90 else 0x80
        let hi : UInt8 := if b0 == 0xF4 then 0x8F else 0xBF
        if lo ≤ b1 && b1 ≤ hi && isContinuation b2 && isContinuation b3 then some 4 else none
      | _ => none
    else none

/-- The scan of `utf8.Valid`, with `pending` bytes of the current sequence still to pass. -/
def validFrom (pending : Nat) (s : List UInt8) : Bool :=
  match s with
  | [] => true
  | b :: rest =>
    match pending with
    | k + 1 => validFrom k rest
    | 0 =>
      match runeWidth (b :: rest) with
      | some w => validFrom (w - 1) rest
      | none => false

/-- Whether the bytes are valid UTF-8 (`utf8.Valid`). -/
def validUTF8 (s : List UInt8) : Bool := validFrom 0 s

/-- The coercion to valid UTF-8 of `encoding/json`, with `pending` bytes of the current
sequence still to copy: a well-formed sequence is copied, and every byte that starts none is
replaced by the encoding `EF BF BD` of the replacement rune U+FFFD. -/
def coerceFrom (pending : Nat) (s : List UInt8) : List UInt8 :=
  match s with
  | [] => []
  | b :: rest =>
    match pending with
    | k + 1 => b :: coerceFrom k rest
    | 0 =>
      match runeWidth (b :: rest) with
      | some w => b :: coerceFrom (w - 1) rest
      | none => 0xEF :: 0xBF :: 0xBD :: coerceFrom 0 rest

/-- The string that `encoding/json` reads out of a string literal with the content `s`, and
the string that is read back after it wrote the Go string `s`: "coerced to valid UTF-8,
replacing invalid bytes with the Unicode replacement rune". -/
def coerceToValidUTF8 (s : GoString) : GoString := coerceFrom 0 s

/-- A JSON text, as its tree. -/
inductive JSONValue where
  | null
  | bool (b : Bool)
  /-- A number literal without fraction and exponent, that denotes the integer `n`. -/
  | number (n : Int)
  /-- A number literal with a fraction or an exponent, as it is written. -/
  | fraction (literal : GoString)
  /-- A string literal with the content `s`. -/
  | string (s : GoString)
  | array (elems : List JSONValue)
  | object (members : List (GoString × JSONValue))

/-- The digit of `"0123456789abcdef"` for `n < 16`. -/
def hexDigit (n : UInt8) : UInt8 := if n < 10 then 0x30 + n else 0x61 + (n - 10)

/-- The escaping of the encoder in the Go releases of this code (before Go 1.21), with its
default HTML escaping, as `json.Marshal` has it, and with `pending` bytes of the current UTF-8
sequence still to copy: quote and backslash get a backslash, newline, carriage return and tab
their short forms, the other control characters and `<`, `>`, `&` the form `\u00XX`, a byte
that starts no UTF-8 sequence becomes `\ufffd`, and U+2028 and U+2029 are escaped. -/
def escapeFrom (pending : Nat) (s : List UInt8) : List UInt8 :=
  match pending, s with
  | _, [] => []
  | k + 1, b :: rest => b :: escapeFrom k rest
  | 0, 0xE2 :: 0x80 :: 0xA8 :: rest => ascii "\\u2028" ++ escapeFrom 0 rest
  | 0, 0xE2 :: 0x80 :: 0xA9 :: rest => ascii "\\u2029" ++ escapeFrom 0 rest
  | 0, b :: rest =>
    if b < 0x80 then
      if b == 0x22 || b == 0x5C then 0x5C :: b :: escapeFrom 0 rest
      else if b == 0x0A then ascii "\\n" ++ escapeFrom 0 rest
      else if b == 0x0D then ascii "\\r" ++ escapeFrom 0 rest
      else if b == 0x09 then ascii "\\t" ++ escapeFrom 0 rest
      else if b < 0x20 || b == 0x3C || b == 0x3E || b == 0x26 then
        ascii "\\u00" ++ [hexDigit (b / 16), hexDigit (b % 16)] ++ escapeFrom 0 rest
      else b :: escapeFrom 0 rest
    else
      match runeWidth (b :: rest) with
      | none => ascii "\\ufffd" ++ escapeFrom 0 rest
      | some w => b :: escapeFrom (w - 1) rest

/-- The content of the string literal that Go's encoder writes for the Go string `s`. -/
def escapeString (s : List UInt8) : List UInt8 := escapeFrom 0 s

/-- The decimal digits of an integer, as `strconv.AppendInt(_, n, 10)` writes them. -/
def decimal (n : Int) : GoString :=
  if n < 0 then ascii "-" ++ ascii (Nat.repr n.natAbs) else ascii (Nat.repr n.toNat)

mutual
/-- The compact text that Go's encoder writes for a tree. -/
def JSONValue.render : JSONValue → GoString
  | .null => ascii "null"
  | .bool true => ascii "true"
  | .bool false => ascii "false"
  | .number n => decimal n
  | .fraction literal => literal
  | .string s => ascii "\"" ++ escapeString s ++ ascii "\""
  | .array elems => ascii "[" ++ renderElems elems ++ ascii "]"
  | .object members => ascii "\x7b" ++ renderMembers members ++ ascii "\x7d"
/-- The elements of an array, with commas between them. -/
def renderElems : List JSONValue → GoString
  | [] => []
  | [v] => v.render
  | v :: rest => v.render ++ ascii "," ++ renderElems rest
/-- The members of an object, with commas between them. -/
def renderMembers : List (GoString × JSONValue) → GoString
  | [] => []
  | [(k, v)] => ascii "\"" ++ escapeString k ++ ascii "\":" ++ v.render
  | (k, v) :: rest =>
    ascii "\"" ++ escapeString k ++ ascii "\":" ++ v.render ++ ascii "," ++ renderMembers rest
end

/-- The member of an object with the key `key` (the last one, as in a Go map made of the
object), `none` when there is none or the tree is no object. -/
def JSONValue.member (v : JSONValue) (key : GoString) : Option JSONValue :=
  match v with
  | .object members => (members.reverse.lookup key)
  | _ => none

/-- The kinds of JSON values that an `UnmarshalTypeError` names. -/
inductive JSONKind where
  | bool | number | string | array | object
deriving DecidableEq, Repr

/-- The error `*json.UnmarshalTypeError`: a JSON value of the kind `Value` was not
appropriate for the struct field with the JSON name `Field` (empty for the struct itself). -/
structure UnmarshalTypeError where
  Value : JSONKind
  Field : GoString
deriving DecidableEq, Repr

/-- Whether an integer is in the bounds of an `int64`. -/
def isInt64 (n : Int) : Bool := decide (-2 ^ 63 ≤ n) && decide (n < 2 ^ 63)

/-- What `json.Unmarshal` makes of a field of type `int64` that holds `old`: the new
contents, and the error if the value is not appropriate. A null has no effect; an integer
literal in the bounds is stored; everything else is an error and leaves the field. -/
def decodeInt64 (field : GoString) (v : JSONValue) (old : Int) :
    Int × Option UnmarshalTypeError :=
  match v with
  | .null => (old, none)
  | .number n => if isInt64 n then (n, none) else (old, some ⟨.number, field⟩)
  | .fraction _ => (old, some ⟨.number, field⟩)
  | .bool _ => (old, some ⟨.bool, field⟩)
  | .string _ => (old, some ⟨.string, field⟩)
  | .array _ => (old, some ⟨.array, field⟩)
  | .object _ => (old, some ⟨.object, field⟩)

/-- What `json.Unmarshal` makes of a field of type `string` that holds `old`. A null has no
effect; the content of a string literal is stored, coerced to valid UTF-8; everything else is
an error and leaves the field. -/
def decodeString (field : GoString) (v : JSONValue) (old : GoString) :
    GoString × Option UnmarshalTypeError :=
  match v with
  | .null => (old, none)
  | .string s => (coerceToValidUTF8 s, none)
  | .number _ => (old, some ⟨.number, field⟩)
  | .fraction _ => (old, some ⟨.number, field⟩)
  | .bool _ => (old, some ⟨.bool, field⟩)
  | .array _ => (old, some ⟨.array, field⟩)
  | .object _ => (old, some ⟨.object, field⟩)

/-- The fold of an ASCII letter to upper case; other bytes stay. -/
def foldByte (b : UInt8) : UInt8 := if 0x61 ≤ b && b ≤ 0x7A then b - 0x20 else b

/-- Whether the key of an object member selects the field with the JSON name `name`, when no
field has exactly the key as its name: the match without regard to case of the decoder. The
names here are ASCII without `k` and `s`, the two letters that a letter outside of ASCII folds
to, so the match is the equality of the keys folded to upper case. -/
def equalFold (name key : GoString) : Bool := name.map foldByte == key.map foldByte

/-! ## `types/env.go` -/

/-- The struct `BlockInfo` of `types/env.go` (`types.go` declares the same fields and tags):
`Height int64` with the tag `json:"height"`, `Time int64` with the tag `json:"time"`, and
`ChainID string` with the tag `json:"chain_id"`. An `int64` is an integer in `isInt64`. -/
structure BlockInfo where
  Height : Int
  Time : Int
  ChainID : GoString
deriving DecidableEq, Repr

/-- The zero value of `BlockInfo`. -/
def BlockInfo.zero : BlockInfo := ⟨0, 0, []⟩

/-- The fields of `BlockInfo`, in the order of the declaration. -/
inductive BlockInfoField where
  | Height | Time | ChainID
deriving DecidableEq, Repr

/-- The JSON name of a field, from its tag. -/
def BlockInfoField.name : BlockInfoField → GoString
  | .Height => ascii "height"
  | .Time => ascii "time"
  | .ChainID => ascii "chain_id"

/-- The field that the decoder selects for the key of an object member: the field with
exactly this name, else the first field whose name matches without regard to case. -/
def BlockInfoField.ofKey (key : GoString) : Option BlockInfoField :=
  let fields := [BlockInfoField.Height, .Time, .ChainID]
  match fields.find? (fun f => f.name == key) with
  | some f => some f
  | none => fields.find? (fun f => equalFold f.name key)

/-- The tree that `json.Marshal` makes of a `BlockInfo`: an object with one member for each
field, in the order of the declaration and under the name of its tag; no tag has the option
`string`, so an `int64` is written as a number. -/
def BlockInfo.marshal (b : BlockInfo) : JSONValue :=
  .object [(ascii "height", .number b.Height), (ascii "time", .number b.Time),
    (ascii "chain_id", .string b.ChainID)]

/-- The step of the decoder at one member of an object: the member is stored in the field
its key selects (a key that selects none is skipped), and the first error is kept. -/
def BlockInfo.unmarshalMember (acc : BlockInfo × Option UnmarshalTypeError)
    (m : GoString × JSONValue) : BlockInfo × Option UnmarshalTypeError :=
  let keep (e : Option UnmarshalTypeError) : Option UnmarshalTypeError :=
    if acc.2 != none then acc.2 else e
  match BlockInfoField.ofKey m.1 with
  | none => acc
  | some .Height =>
    let r := decodeInt64 BlockInfoField.Height.name m.2 acc.1.Height
    ({ acc.1 with Height := r.1 }, keep r.2)
  | some .Time =>
    let r := decodeInt64 BlockInfoField.Time.name m.2 acc.1.Time
    ({ acc.1 with Time := r.1 }, keep r.2)
  | some .ChainID =>
    let r := decodeString BlockInfoField.ChainID.name m.2 acc.1.ChainID
    ({ acc.1 with ChainID := r.1 }, keep r.2)

/-- What `json.Unmarshal(text, &target)` does for the tree of the text: the contents of
`target` afterwards and the error it returns (`none` for nil). A null has no effect, the
members of an object are stored one after the other, and any other value is an error. -/
def BlockInfo.unmarshal (v : JSONValue) (target : BlockInfo) :
    BlockInfo × Option UnmarshalTypeError :=
  match v with
  | .null => (target, none)
  | .object members => members.foldl BlockInfo.unmarshalMember (target, none)
  | .number _ => (target, some ⟨.number, []⟩)
  | .fraction _ => (target, some ⟨.number, []⟩)
  | .bool _ => (target, some ⟨.bool, []⟩)
  | .string _ => (target, some ⟨.string, []⟩)
  | .array _ => (target, some ⟨.array, []⟩)

/-- The struct `MessageInfo` of `types/env.go`: `Sender CanonicalAddress` with the tag
`json:"sender"` and `SentFunds Coins` with the tag `json:"sent_funds"`. The types
`CanonicalAddress` and `Coins` are declared in a file that is missing, so they are the
parameters `A` and `C`. -/
structure MessageInfo (A C : Type) where
  Sender : A
  SentFunds : C

/-- The tree that `json.Marshal` makes of a `MessageInfo`, given what it makes of the two
field types: an object with one member for each field, in the order of the declaration and
under the name of its tag (no tag has the option `omitempty`). -/
def MessageInfo.marshal {A C : Type} (marshalAddress : A → JSONValue)
    (marshalCoins : C → JSONValue) (info : MessageInfo A C) : JSONValue :=
  .object [(ascii "sender", marshalAddress info.Sender),
    (ascii "sent_funds", marshalCoins info.SentFunds)]

/-- The struct `Coin` as `types.go` declares it: `Denom string` with the tag `json:"denom"`
and `Amount string` with the tag `json:"amount"`. -/
structure Coin where
  Denom : GoString
  Amount : GoString
deriving DecidableEq, Repr

/-- The tree that `json.Marshal` makes of a `Coin`. -/
def Coin.marshal (c : Coin) : JSONValue :=
  .object [(ascii "denom", .string c.Denom), (ascii "amount", .string c.Amount)]

/-- Modelled from the spec: the type `Coins` of the funds is declared in a file that is
missing; it is a list of coins that is written as an array, "emitting empty-array (not
null/absent) for an empty funds list". -/
def marshalCoins (coins : List Coin) : JSONValue := .array (coins.map Coin.marshal)

/-- The tree that `json.Marshal` makes of a Go string. -/
def marshalString (s : GoString) : JSONValue := .string s

/-! ## Concrete hosts and engines, for evaluating the definitions -/

/-- A store whose `Get` and `Set` panic. -/
def panickingStore : KVStore Unit where
  Get := fun _ s => (.panicked (some ⟨1⟩), s)
  Set := fun _ _ s => (.panicked (some ⟨1⟩), s)

/-- An address codec whose two functions panic. -/
def panickingAPI : GoAPI Unit where
  HumanAddress := fun _ s => (.panicked (some ⟨1⟩), s)
  CanonicalAddress := fun _ s => (.panicked (some ⟨1⟩), s)

/-- A store whose `Get` and `Set` do `panic(nil)`. -/
def nilPanickingStore : KVStore Unit where
  Get := fun _ s => (.panicked none, s)
  Set := fun _ _ s => (.panicked none, s)

/-- An address codec whose two functions do `panic(nil)`. -/
def nilPanickingAPI : GoAPI Unit where
  HumanAddress := fun _ s => (.panicked none, s)
  CanonicalAddress := fun _ s => (.panicked none, s)

/-- An address codec whose two functions return an error. -/
def failingAPI : GoAPI Unit where
  HumanAddress := fun _ s => (.returned ([], some (.other 7)), s)
  CanonicalAddress := fun _ s => (.returned (none, some (.other 7)), s)

/-- A store over a list of key and value pairs: `Get` returns the value of the first pair
with the key, or nil when there is none; `Set` puts a pair in front. -/
def listStore : KVStore (List (List UInt8 × List UInt8)) where
  Get := fun k s => (.returned (s.lookup k.toGoString), s)
  Set := fun k v s => (.returned (), (k.toGoString, v.toGoString) :: s)

/-- The world before anything happened, for a host without state. -/
def emptyWorld : World Unit where
  host := ()
  latestContractCallID := 0
  iteratorFrames := []
  destroyed := []

/-- An engine function that touches nothing and returns `r`. -/
def constFn3 (r : EngineReturn) : EngineFn3 Unit Unit Unit :=
  fun _ _ _ _ _ _ _ _ _ _ _ w => (.returned r, w)

/-- An engine function with four views that touches nothing and returns `r`. -/
def constFn4 (r : EngineReturn) : EngineFn4 Unit Unit Unit :=
  fun _ _ _ _ _ _ _ _ _ _ _ _ w => (.returned r, w)

/-- An engine all of whose functions touch nothing and return `r`. -/
def constEngine (r : EngineReturn) : CApi Unit Unit Unit where
  instantiate := constFn4 r
  handle := constFn4 r
  migrate := constFn3 r
  query := constFn3 r
  ibc_channel_open := constFn3 r
  ibc_channel_connect := constFn3 r
  ibc_channel_close := constFn3 r
  ibc_packet_receive := constFn3 r
  ibc_packet_ack := constFn3 r
  ibc_packet_timeout := constFn3 r

/-- An engine outcome with the failure status 1, the gas 7 and the message "no". -/
def failureReturn : EngineReturn where
  res := .absent
  err := some 1
  gasUsed := 7
  errmsg := .present [110, 111]

/-- An engine outcome with the out-of-gas status 2 that reports no gas used and the
message "gas". -/
def outOfGasReturn : EngineReturn where
  res := .absent
  err := some 2
  gasUsed := 0
  errmsg := .present [103, 97, 115]

/-- Arguments of an entry point with the gas limit 100, over the store and the codec that
panic (an engine that runs no callback never reaches them). -/
def sampleInput : CallInput Unit Unit Unit where
  cache := ⟨0⟩
  checksum := some [1]
  env := some [2]
  info := some [3]
  msg := some [4]
  gasMeter := ()
  store := panickingStore
  api := panickingAPI
  querier := ()
  gasLimit := 100
  printDebug := false

/-! ## The callbacks of `api/callbacks.go` -/

/-- When the host capability panics with a value that is not nil during `cGet`,
`cHumanAddress` or `cCanonicalAddress`, the callback returns, with the status -1. -/
theorem callbacks_contain_value_panics {h : Type} (kv : KVStore h) (api : GoAPI h)
    (input : Buffer) (output : Option Buffer) (s : h) :
    (∀ v s1, kv.Get (receiveSlice input) s = (.panicked (some v), s1) →
      (cGet kv input output s).ret = .returned (-1)) ∧
    (∀ v s1, api.HumanAddress (receiveSlice input) s = (.panicked (some v), s1) →
      (cHumanAddress api input output s).ret = .returned (-1)) ∧
    (∀ v s1, api.CanonicalAddress (receiveSlice input).toGoString s
        = (.panicked (some v), s1) →
      (cCanonicalAddress api input output s).ret = .returned (-1)) := by
  refine ⟨?_, ?_, ?_⟩
  · intro v s1 hp
    cases output with
    | none => simp [cGet, deferRecover, recover]
    | some cell => simp [cGet, hp, deferRecover, recover]
  · intro v s1 hp
    cases output with
    | none => simp [cHumanAddress, deferRecover, recover]
    | some cell => simp [cHumanAddress, hp, deferRecover, recover]
  · intro v s1 hp
    cases output with
    | none => simp [cCanonicalAddress, deferRecover, recover]
    | some cell => simp [cCanonicalAddress, hp, deferRecover, recover]

/-- When the host capability does `panic(nil)` during `cGet`, `cHumanAddress` or
`cCanonicalAddress` called with an output cell, the callback stops the panic and returns the
status 0, and the output cell is as before the call. -/
theorem callbacks_return_zero_after_nil_panic {h : Type} (kv : KVStore h) (api : GoAPI h)
    (input : Buffer) (cell : Buffer) (s : h) :
    (∀ s1, kv.Get (receiveSlice input) s = (.panicked none, s1) →
      cGet kv input (some cell) s = ⟨.returned 0, some cell, s1⟩) ∧
    (∀ s1, api.HumanAddress (receiveSlice input) s = (.panicked none, s1) →
      cHumanAddress api input (some cell) s = ⟨.returned 0, some cell, s1⟩) ∧
    (∀ s1, api.CanonicalAddress (receiveSlice input).toGoString s = (.panicked none, s1) →
      cCanonicalAddress api input (some cell) s = ⟨.returned 0, some cell, s1⟩) := by
  refine ⟨?_, ?_, ?_⟩
  · intro s1 hp
    simp [cGet, hp, deferRecover, recover]
  · intro s1 hp
    simp [cHumanAddress, hp, deferRecover, recover]
  · intro s1 hp
    simp [cCanonicalAddress, hp, deferRecover, recover]

/-- C1: at a store and a codec that do `panic(nil)`, each of `cGet`, `cHumanAddress` and
`cCanonicalAddress` stops the panic but returns the status 0, not -1, and leaves the output
buffer absent: the engine reads a success (for `cGet`, a missing key). At a store and a codec
that panic with a value, the three callbacks return -1. -/
theorem callbacks_miss_nil_panic :
    (cGet nilPanickingStore (.present [1]) (some .absent) ()).ret = .returned 0 ∧
    (cGet nilPanickingStore (.present [1]) (some .absent) ()).out = some .absent ∧
    (cHumanAddress nilPanickingAPI (.present [1]) (some .absent) ()).ret = .returned 0 ∧
    (cHumanAddress nilPanickingAPI (.present [1]) (some .absent) ()).out = some .absent ∧
    (cCanonicalAddress nilPanickingAPI (.present [1]) (some .absent) ()).ret = .returned 0 ∧
    (cCanonicalAddress nilPanickingAPI (.present [1]) (some .absent) ()).out = some .absent ∧
    (cGet panickingStore (.present [1]) (some .absent) ()).ret = .returned (-1) ∧
    (cHumanAddress panickingAPI (.present [1]) (some .absent) ()).ret = .returned (-1) ∧
    (cCanonicalAddress panickingAPI (.present [1]) (some .absent) ()).ret = .returned (-1) := by
  decide

/-- C2: at a store whose `Set` panics, `cSet` hands no status back and the panic unwinds into
its caller, while `cGet` on the same store (whose `Get` panics too) returns the status -1. -/
theorem cSet_propagates_panic :
    cSet panickingStore (.present [1]) (.present [2]) () = (.panicked (some ⟨1⟩), ()) ∧
    (cGet panickingStore (.present [1]) (some .absent) ()).ret = .returned (-1) := by
  decide

/-- C5: with the output buffer in its initial absent state, `cGet` leaves it absent and
returns 0 when the store's `Get` reports the key missing (nil), and overwrites it with an
owned copy of the value and returns 0 when `Get` returns a value, the empty one included; so
the two results differ. -/
theorem cGet_missing_differs_from_empty {h : Type} (kv kv2 : KVStore h) (key key2 : Buffer)
    (s s1 t t1 : h) (bs : List UInt8)
    (hmissing : kv.Get (receiveSlice key) s = (.returned none, s1))
    (hpresent : kv2.Get (receiveSlice key2) t = (.returned (some bs), t1)) :
    (cGet kv key (some .absent) s).ret = .returned 0 ∧
    (cGet kv key (some .absent) s).out = some .absent ∧
    (cGet kv2 key2 (some .absent) t).ret = .returned 0 ∧
    (cGet kv2 key2 (some .absent) t).out = some (allocateRust (some bs)) ∧
    allocateRust (some bs) = .present bs ∧
    (cGet kv key (some .absent) s).out ≠ (cGet kv2 key2 (some .absent) t).out := by
  simp [cGet, hmissing, hpresent, deferRecover, recover, allocateRust, GoSlice.toGoString]

/-- C5 at a store that holds the empty value under the key 1 and nothing under the key 2. -/
theorem cGet_missing_differs_from_empty_witness :
    (cGet listStore (.present [2]) (some .absent) [([1], [])]).out = some .absent ∧
    (cGet listStore (.present [1]) (some .absent) [([1], [])]).out = some (.present []) :=
  have key := cGet_missing_differs_from_empty listStore listStore (.present [2]) (.present [1])
    [([1], [])] [([1], [])] [([1], [])] [([1], [])] [] (by decide) (by decide)
  ⟨key.2.1, key.2.2.2.1⟩

/-- C6: when the codec's `HumanAddress` (resp. `CanonicalAddress`) returns an error,
`cHumanAddress` (resp. `cCanonicalAddress`) returns the nonzero status -1 and the output
buffer is as it was before the call. -/
theorem address_error_leaves_output {h : Type} (api : GoAPI h) (input : Buffer)
    (output : Option Buffer) (s : h) :
    (∀ hum e s1, api.HumanAddress (receiveSlice input) s = (.returned (hum, some e), s1) →
      (cHumanAddress api input output s).ret = .returned (-1) ∧
      (cHumanAddress api input output s).ret ≠ .returned 0 ∧
      (cHumanAddress api input output s).out = output) ∧
    (∀ c e s1, api.CanonicalAddress (receiveSlice input).toGoString s
        = (.returned (c, some e), s1) →
      (cCanonicalAddress api input output s).ret = .returned (-1) ∧
      (cCanonicalAddress api input output s).ret ≠ .returned 0 ∧
      (cCanonicalAddress api input output s).out = output) := by
  refine ⟨?_, ?_⟩
  · intro hum e s1 he
    cases output with
    | none => simp [cHumanAddress, deferRecover, recover]
    | some cell => simp [cHumanAddress, he, deferRecover, recover]
  · intro c e s1 he
    cases output with
    | none => simp [cCanonicalAddress, deferRecover, recover]
    | some cell => simp [cCanonicalAddress, he, deferRecover, recover]

/-- C6 at a codec that returns an error, with the output buffer absent before the call. -/
theorem address_error_leaves_output_witness :
    (cHumanAddress failingAPI (.present [1]) (some .absent) ()).out = some .absent ∧
    (cCanonicalAddress failingAPI (.present [1]) (some .absent) ()).out = some .absent :=
  ⟨((address_error_leaves_output failingAPI (.present [1]) (some .absent) ()).1
      [] (.other 7) () rfl).2.2,
   ((address_error_leaves_output failingAPI (.present [1]) (some .absent) ()).2
      none (.other 7) () rfl).2.2⟩

/-! ## `errorWithMessage` -/

/-- On the range of a `uintptr`, `int(errno)` is 2 for the status 2 only. -/
theorem intOfUintptr_eq_two (s : Nat) (hs : s < 2 ^ 64) : intOfUintptr s = 2 ↔ s = 2 := by
  unfold intOfUintptr
  simp only [Nat.mod_eq_of_lt hs]
  norm_num at hs ⊢
  split <;> omega

/-- What `errorWithMessage` does on a status other than 2: it consumes the vector, and
returns the status itself when the vector was absent, the generic error of its bytes else. -/
theorem errorWithMessage_of_ne_two {h : Type} (s : Nat) (hs : s < 2 ^ 64) (hne : s ≠ 2)
    (b : UnmanagedVector) (w : World h) :
    errorWithMessage (some (.errno s)) b w =
      (match b with
        | .absent => some (.errno s)
        | .present m => some (.errorf m),
       { w with destroyed := w.destroyed ++ [b] }) := by
  have h2 : ¬ intOfUintptr s = 2 := fun hc => hne ((intOfUintptr_eq_two s hs).1 hc)
  cases b <;>
    simp [errorWithMessage, assertErrno, h2, copyAndDestroyUnmanagedVector,
      GoSlice.toGoString]

/-- What `errorWithMessage` does on the status 2: it returns the OutOfGas error and leaves
the vector alone. -/
theorem errorWithMessage_of_two {h : Type} (b : UnmanagedVector) (w : World h) :
    errorWithMessage (some (.errno 2)) b w = (some .outOfGas, w) := by
  have h2 : intOfUintptr 2 = 2 := (intOfUintptr_eq_two 2 (by norm_num)).2 rfl
  simp [errorWithMessage, assertErrno, h2]

/-- C3: for every error message vector, `errorWithMessage` on the status 2 returns the
OutOfGas error, and on a status other than 2 it does not return the OutOfGas error. -/
theorem errorWithMessage_outOfGas_iff {h : Type} (b : UnmanagedVector) (w : World h) :
    (errorWithMessage (some (.errno 2)) b w).1 = some .outOfGas ∧
    (∀ s, s < 2 ^ 64 → s ≠ 2 →
      (errorWithMessage (some (.errno s)) b w).1 ≠ some .outOfGas) := by
  refine ⟨?_, ?_⟩
  · rw [errorWithMessage_of_two]
  · intro s hs hne
    rw [errorWithMessage_of_ne_two s hs hne]
    cases b <;> simp

/-- C3 at a vector with data: the status 2 gives OutOfGas, the status 1 does not. -/
theorem errorWithMessage_outOfGas_iff_witness :
    (errorWithMessage (some (.errno 2)) (.present [110, 111]) emptyWorld).1 = some .outOfGas ∧
    (errorWithMessage (some (.errno 1)) (.present [110, 111]) emptyWorld).1
      ≠ some .outOfGas :=
  ⟨(errorWithMessage_outOfGas_iff (.present [110, 111]) emptyWorld).1,
   (errorWithMessage_outOfGas_iff (.present [110, 111]) emptyWorld).2 1 (by norm_num)
     (by decide)⟩

/-- C8: on a status other than 2 and a message vector present with the bytes `m`,
`errorWithMessage` returns the generic error whose text is `m`, and the vector is released
once: the log of released vectors grows by this vector and nothing else changes. -/
theorem errorWithMessage_generic {h : Type} (s : Nat) (hs : s < 2 ^ 64) (hne : s ≠ 2)
    (m : List UInt8) (w : World h) :
    errorWithMessage (some (.errno s)) (.present m) w =
      (some (.errorf m), { w with destroyed := w.destroyed ++ [.present m] }) := by
  rw [errorWithMessage_of_ne_two s hs hne]

/-- C8 at the status 1 and the message "no". -/
theorem errorWithMessage_generic_witness :
    errorWithMessage (some (.errno 1)) (.present [110, 111]) emptyWorld =
      (some (.errorf [110, 111]),
        { emptyWorld with destroyed := emptyWorld.destroyed ++ [.present [110, 111]] }) :=
  errorWithMessage_generic 1 (by norm_num) (by decide) [110, 111] emptyWorld

/-- C9: on a status other than 2 and an absent message vector, `errorWithMessage` returns
the error it was given, the raw status. -/
theorem errorWithMessage_absent {h : Type} (s : Nat) (hs : s < 2 ^ 64) (hne : s ≠ 2)
    (w : World h) :
    (errorWithMessage (some (.errno s)) .absent w).1 = some (.errno s) := by
  rw [errorWithMessage_of_ne_two s hs hne]

/-- C9 at the status 1. -/
theorem errorWithMessage_absent_witness :
    (errorWithMessage (some (.errno 1)) .absent emptyWorld).1 = some (.errno 1) :=
  errorWithMessage_absent 1 (by norm_num) (by decide) emptyWorld

/-! ## The entry points of `api/lib.go` -/

/-- Every entry point is: open the frame, call the engine in it, translate what the engine
returned, and close the frame last, also when the engine call panicked. -/
theorem run_eq {h G Q : Type} (ep : EntryPoint) (C : CApi h G Q) (inp : CallInput h G Q)
    (w : World h) :
    ep.run C inp w =
      withDefer (endContract (startContract w).1) (fun w2 =>
        match ep.engineCall C inp (startContract w).1 w2 with
        | (.panicked p, w3) => (.panicked p, w3)
        | (.returned r, w3) =>
          if r.err != none && r.err != some ErrnoValue_Success then
            (.returned (none, r.gasUsed,
                (errorWithMessage (r.err.map GoError.errno) r.errmsg w3).1),
              (errorWithMessage (r.err.map GoError.errno) r.errmsg w3).2)
          else
            (.returned ((copyAndDestroyUnmanagedVector r.res w3).1, r.gasUsed, none),
              (copyAndDestroyUnmanagedVector r.res w3).2)) (startContract w).2 := by
  cases ep <;> rfl

/-- The call `errorWithMessage` leaves the iterator registry as it is. -/
theorem errorWithMessage_iteratorFrames {h : Type} (err : Option GoError)
    (b : UnmanagedVector) (w : World h) :
    (errorWithMessage err b w).2.iteratorFrames = w.iteratorFrames := by
  unfold errorWithMessage copyAndDestroyUnmanagedVector
  simp only
  split
  · rfl
  · split <;> rfl

/-- When the engine call of an entry point returns a failure status, the entry point returns
no result, the gas the engine reported and the error of `errorWithMessage`. -/
theorem run_of_failure {h G Q : Type} (ep : EntryPoint) (C : CApi h G Q)
    (inp : CallInput h G Q) (w w3 : World h) (r : EngineReturn) (s : Nat)
    (hcall : ep.engineCall C inp (startContract w).1 (startContract w).2 = (.returned r, w3))
    (herr : r.err = some s) (hfail : s ≠ ErrnoValue_Success) :
    (ep.run C inp w).1 =
      .returned (none, r.gasUsed, (errorWithMessage (some (.errno s)) r.errmsg w3).1) := by
  rw [run_eq]
  simp [withDefer, hcall, herr, hfail]

/-- C4: for every entry point and every engine outcome with a failure status `s`, reported
gas `g` and error message vector `b`, the entry point returns no result buffer, the gas `g`
and the error `errorWithMessage(s, b)`: the same triple from every entry point. -/
theorem entry_points_translate_failure {h G Q : Type} (ep : EntryPoint) (C : CApi h G Q)
    (inp : CallInput h G Q) (w w3 : World h) (res b : UnmanagedVector) (s g : Nat)
    (hcall : ep.engineCall C inp (startContract w).1 (startContract w).2
      = (.returned ⟨res, some s, g, b⟩, w3))
    (hfail : s ≠ ErrnoValue_Success) :
    (ep.run C inp w).1 = .returned (none, g, (errorWithMessage (some (.errno s)) b w3).1) :=
  run_of_failure ep C inp w w3 ⟨res, some s, g, b⟩ s hcall rfl hfail

/-- C4 at `IBCPacketTimeout` and an engine that reports the status 1, the gas 7 and the
message "no". -/
theorem entry_points_translate_failure_witness :
    (EntryPoint.IBCPacketTimeout.run (constEngine failureReturn) sampleInput emptyWorld).1 =
      .returned (none, 7, (errorWithMessage (some (.errno 1)) (.present [110, 111])
        (startContract emptyWorld).2).1) :=
  entry_points_translate_failure .IBCPacketTimeout (constEngine failureReturn) sampleInput
    emptyWorld (startContract emptyWorld).2 .absent (.present [110, 111]) 1 7 rfl (by decide)

/-- C7: for every entry point and every way the engine call ends (it returns a success or a
failure status, or a host capability panics in it), the iterator registry at the return of
the entry point is what `endContract`, called with the identifier that `startContract` gave
at the start, makes of the registry the engine call left; the frame of that identifier was
open during the engine call and is closed at the return. -/
theorem entry_points_close_frame {h G Q : Type} (ep : EntryPoint) (C : CApi h G Q)
    (inp : CallInput h G Q) (w : World h) :
    (ep.run C inp w).2.iteratorFrames =
      (endContract (startContract w).1
        (ep.engineCall C inp (startContract w).1 (startContract w).2).2).iteratorFrames ∧
    (∃ f ∈ (startContract w).2.iteratorFrames, f.id = (startContract w).1) ∧
    (∀ f ∈ (ep.run C inp w).2.iteratorFrames, f.id ≠ (startContract w).1) := by
  have hframes : (ep.run C inp w).2.iteratorFrames =
      (endContract (startContract w).1
        (ep.engineCall C inp (startContract w).1 (startContract w).2).2).iteratorFrames := by
    rw [run_eq]
    simp only [withDefer]
    rcases ep.engineCall C inp (startContract w).1 (startContract w).2 with ⟨o, w3⟩
    cases o with
    | panicked p => rfl
    | returned r =>
      simp only [endContract]
      split
      · simp [errorWithMessage_iteratorFrames]
      · simp [copyAndDestroyUnmanagedVector]
  refine ⟨hframes, ⟨⟨(startContract w).1, []⟩, by simp [startContract], rfl⟩, ?_⟩
  intro f hf
  rw [hframes] at hf
  simp only [endContract, List.mem_filter] at hf
  simpa using hf.2

/-- C10, as stated, fails: at the gas limit 100 and an engine that ends `Instantiate` with
the out-of-gas status and reports no gas used, the entry point returns OutOfGas with the
gas 0, not 100. -/
theorem outOfGas_gas_is_not_limit :
    (EntryPoint.Instantiate.engineCall (constEngine outOfGasReturn) sampleInput
        (startContract emptyWorld).1 (startContract emptyWorld).2).1
      = .returned outOfGasReturn ∧
    outOfGasReturn.err = some 2 ∧
    sampleInput.gasLimit = 100 ∧
    (EntryPoint.Instantiate.run (constEngine outOfGasReturn) sampleInput emptyWorld).1
      = .returned (none, 0, some .outOfGas) ∧
    (EntryPoint.Instantiate.run (constEngine outOfGasReturn) sampleInput emptyWorld).1
      ≠ .returned (none, sampleInput.gasLimit, some .outOfGas) := by
  decide

/-- C10, amended: for every entry point and every gas limit, when the engine call ends with
the out-of-gas status 2, the entry point returns no result, the OutOfGas error, and as
gas-used the gas the engine reported. -/
theorem entry_points_outOfGas {h G Q : Type} (ep : EntryPoint) (C : CApi h G Q)
    (inp : CallInput h G Q) (w w3 : World h) (r : EngineReturn)
    (hcall : ep.engineCall C inp (startContract w).1 (startContract w).2 = (.returned r, w3))
    (herr : r.err = some 2) :
    (ep.run C inp w).1 = .returned (none, r.gasUsed, some .outOfGas) := by
  rw [run_of_failure ep C inp w w3 r 2 hcall herr (by decide)]
  rw [errorWithMessage_of_two]

/-- C10, amended, at `Query`, the gas limit 100 and an engine that reports no gas used. -/
theorem entry_points_outOfGas_witness :
    (EntryPoint.Query.run (constEngine outOfGasReturn) sampleInput emptyWorld).1
      = .returned (none, 0, some .outOfGas) :=
  entry_points_outOfGas .Query (constEngine outOfGasReturn) sampleInput emptyWorld
    (startContract emptyWorld).2 outOfGasReturn rfl rfl

/-! ## The callbacks at a null output pointer -/

/-- C11: called with a null output pointer, `cGet`, `cHumanAddress` and `cCanonicalAddress`
return -1 at once: whatever the store or the codec would do (change the host state, panic),
the host state is the one before the call, so the capability was not invoked. -/
theorem null_output_fails_fast {h : Type} (kv : KVStore h) (api : GoAPI h) (input : Buffer)
    (s : h) :
    cGet kv input none s = ⟨.returned (-1), none, s⟩ ∧
    cHumanAddress api input none s = ⟨.returned (-1), none, s⟩ ∧
    cCanonicalAddress api input none s = ⟨.returned (-1), none, s⟩ := by
  simp [cGet, cHumanAddress, cCanonicalAddress, deferRecover, recover]

/-! ## The payloads of `types/env.go` -/

/-- On valid UTF-8 the coercion of `encoding/json` changes nothing. -/
theorem coerceFrom_of_valid (s : List UInt8) :
    ∀ k, validFrom k s = true → coerceFrom k s = s := by
  induction s with
  | nil => intro k _; rfl
  | cons b rest ih =>
    intro k hv
    cases k with
    | succ k =>
      simp only [validFrom] at hv
      simp only [coerceFrom, ih k hv]
    | zero =>
      simp only [validFrom] at hv
      simp only [coerceFrom]
      cases hw : runeWidth (b :: rest) with
      | none => simp [hw] at hv
      | some w =>
        simp only [hw] at hv
        simp only [ih _ hv]

/-- The decoder stores an integer literal in the bounds of an `int64`. -/
theorem decodeInt64_number (field : GoString) (n old : Int) (hn : isInt64 n = true) :
    decodeInt64 field (.number n) old = (n, none) := by
  simp [decodeInt64, hn]

/-- C12: the serialization of `BlockInfo{Height:123, Time:1578939743987654321,
ChainID:"foobar"}` and of the zero value, as the declaration in `types/env.go` gives it: the
fields come in the order height, time, chain_id, but the time is written as a JSON number,
not as the JSON string that the claim and `TestBlockInfoSerialization` ask for; and so for
every `BlockInfo`. -/
theorem blockInfo_time_is_a_number :
    (BlockInfo.marshal ⟨123, 1578939743987654321, ascii "foobar"⟩).render
      = ascii "\x7b\"height\":123,\"time\":1578939743987654321,\"chain_id\":\"foobar\"\x7d" ∧
    (BlockInfo.marshal ⟨123, 1578939743987654321, ascii "foobar"⟩).render
      ≠ ascii "\x7b\"height\":123,\"time\":\"1578939743987654321\",\"chain_id\":\"foobar\"\x7d" ∧
    BlockInfo.zero.marshal.render = ascii "\x7b\"height\":0,\"time\":0,\"chain_id\":\"\"\x7d" ∧
    BlockInfo.zero.marshal.render ≠ ascii "\x7b\"height\":0,\"time\":\"0\",\"chain_id\":\"\"\x7d" ∧
    (∀ b : BlockInfo, b.marshal.member (ascii "time") = some (.number b.Time)) := by
  refine ⟨by decide, by decide, by decide, by decide, fun b => rfl⟩

/-- The round trip of the wire form that the code itself writes (the time as a number):
deserializing undoes the serialization of every `BlockInfo` whose chain id is valid UTF-8,
whatever the target held before; and deserializing the empty object, or the object whose
height, time and chain_id are null, into the zero value leaves the zero value. -/
theorem blockInfo_unmarshal_marshal (b target : BlockInfo) (hHeight : isInt64 b.Height = true)
    (hTime : isInt64 b.Time = true) (hChain : validUTF8 b.ChainID = true) :
    BlockInfo.unmarshal b.marshal target = (b, none) ∧
    BlockInfo.unmarshal (.object []) BlockInfo.zero = (BlockInfo.zero, none) ∧
    BlockInfo.unmarshal (.object [(ascii "height", .null), (ascii "time", .null),
      (ascii "chain_id", .null)]) BlockInfo.zero = (BlockInfo.zero, none) := by
  refine ⟨?_, by decide, by decide⟩
  have hheight : BlockInfoField.ofKey (ascii "height") = some .Height := by decide
  have htime : BlockInfoField.ofKey (ascii "time") = some .Time := by decide
  have hchain : BlockInfoField.ofKey (ascii "chain_id") = some .ChainID := by decide
  have hcoerce : coerceToValidUTF8 b.ChainID = b.ChainID :=
    coerceFrom_of_valid b.ChainID 0 hChain
  simp [BlockInfo.unmarshal, BlockInfo.marshal, BlockInfo.unmarshalMember, hheight, htime,
    hchain, decodeInt64_number, hHeight, hTime, decodeString, hcoerce]

/-- C13: the deserialization of `BlockInfo`, as the declaration in `types/env.go` gives it,
on the serialization that the claim and `TestBlockInfoDeserialization` take for
`BlockInfo{Height:123, Time:1578939743987654321, ChainID:"foobar"}`, with the time as a
string: it returns an error for the field time and leaves the time 0, so it does not undo that
serialization. It returns the same error for the time "0" as for the empty string, and for
every string whatever the target holds: the empty string is not rejected for being no decimal
timestamp, a string is never accepted for the time. -/
theorem blockInfo_rejects_string_time :
    (JSONValue.object [(ascii "height", .number 123),
      (ascii "time", .string (ascii "1578939743987654321")),
      (ascii "chain_id", .string (ascii "foobar"))]).render
      = ascii "\x7b\"height\":123,\"time\":\"1578939743987654321\",\"chain_id\":\"foobar\"\x7d" ∧
    BlockInfo.unmarshal (.object [(ascii "height", .number 123),
      (ascii "time", .string (ascii "1578939743987654321")),
      (ascii "chain_id", .string (ascii "foobar"))]) BlockInfo.zero
      = (⟨123, 0, ascii "foobar"⟩, some ⟨.string, ascii "time"⟩) ∧
    (JSONValue.object [(ascii "time", .string (ascii "0"))]).render
      = ascii "\x7b\"time\":\"0\"\x7d" ∧
    BlockInfo.unmarshal (.object [(ascii "time", .string (ascii "0"))]) BlockInfo.zero
      = (BlockInfo.zero, some ⟨.string, ascii "time"⟩) ∧
    (JSONValue.object [(ascii "time", .string [])]).render = ascii "\x7b\"time\":\"\"\x7d" ∧
    BlockInfo.unmarshal (.object [(ascii "time", .string [])]) BlockInfo.zero
      = (BlockInfo.zero, some ⟨.string, ascii "time"⟩) ∧
    (∀ (s : GoString) (target : BlockInfo),
      BlockInfo.unmarshal (.object [(ascii "time", .string s)]) target
        = (target, some ⟨.string, ascii "time"⟩)) := by
  refine ⟨by decide, by decide, by decide, by decide, by decide, by decide, ?_⟩
  intro s target
  have htime : BlockInfoField.ofKey (ascii "time") = some .Time := by decide
  have hname : BlockInfoField.Time.name = ascii "time" := rfl
  simp [BlockInfo.unmarshal, BlockInfo.unmarshalMember, htime, hname, decodeInt64]

/-- The texts of the empty object and of the object with the three nulls, from their trees. -/
theorem blockInfo_scenario_texts :
    (JSONValue.object []).render = ascii "\x7b\x7d" ∧
    (JSONValue.object [(ascii "height", .null), (ascii "time", .null),
      (ascii "chain_id", .null)]).render
      = ascii "\x7b\"height\":null,\"time\":null,\"chain_id\":null\x7d" := by
  decide

/-- C14: the serialization of a `MessageInfo` with the sender "baz" and no funds, as the
declaration in `types/env.go` gives it: the funds are under the key "sent_funds", and there is
no member with the key "funds" that the claim and `TestMessageInfoHandlesMissingCoins` ask
for; and so for every `MessageInfo`, whatever the serialization of the two field types is. -/
theorem messageInfo_has_no_funds_key :
    (MessageInfo.marshal marshalString marshalCoins ⟨ascii "baz", []⟩).render
      = ascii "\x7b\"sender\":\"baz\",\"sent_funds\":[]\x7d" ∧
    (MessageInfo.marshal marshalString marshalCoins ⟨ascii "baz", []⟩).member (ascii "funds")
      = none ∧
    (∀ (A C : Type) (marshalAddress : A → JSONValue) (marshalFunds : C → JSONValue)
      (info : MessageInfo A C),
      (MessageInfo.marshal marshalAddress marshalFunds info).member (ascii "funds") = none) := by
  refine ⟨by decide, rfl, fun A C marshalAddress marshalFunds info => ?_⟩
  have hsender : (ascii "funds" == ascii "sender") = false := by decide
  have hfunds : (ascii "funds" == ascii "sent_funds") = false := by decide
  simp [MessageInfo.marshal, JSONValue.member, List.lookup, hsender, hfunds]

end Wasmvm
